import Mathlib

/-!
Verification of the task-orchestration core of the gpt-trader backend.

The Python sources under `backend/` are shallowly embedded:
* Python dicts keyed by task id become association lists `List (String × α)`
  with first-occurrence update semantics (`dget` / `dset` / `dpop`);
* the module-level globals of `utils.py` (`TASKS`, `LAST_COMPLETED_TASK`,
  `TASK_THREADS`, `TASK_STOP_EVENTS`, `TASK_VERSIONS`) become one explicit
  state record `UtilsState` threaded through every operation;
* impure inputs (`datetime.now().isoformat()`, `uuid4()`) become explicit
  `String` parameters;
* fallible code (`TASKS[task_id]` raising `KeyError`, functions that may
  propagate exceptions) returns `Option` / `Except`;
* a `threading.Event` is modelled by its boolean `is_set` state;
* a `threading.Thread` registry entry is modelled by its key only.
-/

namespace GptTrader

/-- Lookup in a Python-dict-like association list (first match wins). -/
def dget {α : Type} : List (String × α) → String → Option α
  | [], _ => none
  | p :: rest, k => if p.1 = k then some p.2 else dget rest k

/-- Update `m[k] = v` on a Python-dict-like association list: replace the first
binding of `k` in place, or append a fresh binding at the end. -/
def dset {α : Type} : List (String × α) → String → α → List (String × α)
  | [], k, v => [(k, v)]
  | p :: rest, k, v => if p.1 = k then (k, v) :: rest else p :: dset rest k v

/-- Removal `m.pop(k, None)` on a Python-dict-like association list. -/
def dpop {α : Type} (m : List (String × α)) (k : String) : List (String × α) :=
  m.filter (fun p => p.1 ≠ k)

/-- Membership `k in m` on a Python-dict-like association list. -/
def dmem {α : Type} (m : List (String × α)) (k : String) : Bool :=
  (dget m k).isSome

theorem dget_dset_self {α : Type} (m : List (String × α)) (k : String) (v : α) :
    dget (dset m k v) k = some v := by
  induction m with
  | nil => simp [dset, dget]
  | cons p rest ih =>
      by_cases h : p.1 = k
      · simp [dset, dget, h]
      · simp [dset, dget, h, ih]

theorem dget_dset_ne {α : Type} (m : List (String × α)) (k k' : String) (v : α)
    (h : k ≠ k') : dget (dset m k v) k' = dget m k' := by
  induction m with
  | nil => simp [dset, dget, h]
  | cons p rest ih =>
      by_cases hp : p.1 = k
      · subst hp
        simp [dset, dget, h]
      · by_cases hp' : p.1 = k'
        · simp [dset, dget, hp, hp', Ne.symm h]
        · simp [dset, dget, hp, hp', ih]

theorem dget_dpop_self {α : Type} (m : List (String × α)) (k : String) :
    dget (dpop m k) k = none := by
  induction m with
  | nil => simp [dpop, dget]
  | cons p rest ih =>
      by_cases h : p.1 = k
      · simpa [dpop, List.filter, h] using ih
      · simpa [dpop, List.filter, h, dget] using ih

theorem dmem_dpop_self {α : Type} (m : List (String × α)) (k : String) :
    dmem (dpop m k) k = false := by
  simp [dmem, dget_dpop_self]

/-- Embedding of `models.TaskStatus` (models.py:15-20), a `str` enum. -/
inductive TaskStatus where
  | pending
  | running
  | completed
  | failed
  | cancelled
deriving DecidableEq, Repr

/-- Terminal statuses, as enumerated by the SSE loop (main.py:252) and the
scheduler's wait loop (scheduler.py:303). -/
def isTerminal : TaskStatus → Bool
  | .completed => true
  | .failed => true
  | .cancelled => true
  | _ => false

/-- Opaque stand-in for the `Dict[str, Any]` result payload of a task. -/
abbrev ResultDict := List (String × String)

/-- Embedding of `models.Task` (models.py:23-33). `progress` (a Python float in [0,1])
is modelled as a rational; only assignment is ever performed on it. -/
structure Task where
  task_id : String
  status : TaskStatus
  progress : Rat
  message : String
  created_at : String
  completed_at : Option String := none
  top_n : Int
  selected_factors : Option (List String) := none
  result : Option ResultDict := none
  error : Option String := none
  version : Int := 0
deriving DecidableEq, Repr

/- The trailing `version` field above (models.py:34) is declared "for SSE
version tracking" but is never written; the live mechanism is the
separate `TASK_VERSIONS` dict in `utils.py`. -/

/-- The module-level globals of `utils.py` (lines 17-25): `TASKS`,
`LAST_COMPLETED_TASK`, `TASK_THREADS` (keys only), `TASK_STOP_EVENTS`
(each event modelled by its `is_set` bit) and `TASK_VERSIONS`. -/
structure UtilsState where
  tasks : List (String × Task)
  lastCompleted : Option Task := none
  taskThreads : List String := []
  taskStopEvents : List (String × Bool) := []
  taskVersions : List (String × Int) := []
deriving DecidableEq, Repr

/-- The version counter a reader observes for `task_id`
(`TASK_VERSIONS.get(task_id, 0)`). -/
def taskVersion (s : UtilsState) (task_id : String) : Int :=
  (dget s.taskVersions task_id).getD 0

/-- Embedding of `utils.bump_task_version` (utils.py:28-32). -/
def bump_task_version (s : UtilsState) (task_id : String) : UtilsState :=
  { s with
    taskVersions := dset s.taskVersions task_id
      ((dget s.taskVersions task_id).getD 0 + 1) }

/-- Embedding of `utils.update_task_progress` (utils.py:35-41): mutate progress and
message, then bump the version — all only when the id is registered. -/
def update_task_progress (s : UtilsState) (task_id : String)
    (progress : Rat) (message : String) : UtilsState :=
  match dget s.tasks task_id with
  | some t =>
      bump_task_version
        { s with
          tasks := dset s.tasks task_id
            { t with progress := progress, message := message } }
        task_id
  | none => s

/-- Embedding of `utils.handle_task_error` (utils.py:44-50): `TASKS[task_id]` raises
`KeyError` when absent (modelled by `none`); otherwise sets FAILED, the
error string, a failure message and `completed_at`.  Note: it does NOT
call `bump_task_version`. -/
def handle_task_error (s : UtilsState) (task_id : String)
    (error now : String) : Option UtilsState :=
  match dget s.tasks task_id with
  | none => none
  | some t =>
      some { s with
             tasks := dset s.tasks task_id
               { t with
                 status := .failed
                 error := some error
                 message := "分析失败: " ++ error
                 completed_at := some now } }

/-- Embedding of `utils.add_task` (utils.py:58-60). -/
def add_task (s : UtilsState) (t : Task) : UtilsState :=
  { s with tasks := dset s.tasks t.task_id t }

/-- Embedding of `utils.set_last_completed_task` (utils.py:63-66). -/
def set_last_completed_task (s : UtilsState) (t : Task) : UtilsState :=
  { s with lastCompleted := some t }

/-! ## Task runner wrappers (`data_management/services.py`)

`run_analysis_wrapper` / `run_news_evaluation_wrapper` run on a fresh
thread.  The collaborator computation (`run_analysis_task` /
`run_news_evaluation_task`) is a parameter mapping the registry state at
invocation to its outcome: a normal return or an escaping exception,
each with the state it leaves behind.  Gate acquisition
(`ANALYSIS_SEMAPHORE.acquire(timeout=5)`) is a boolean input, since wall
clock time is not modelled.  The result records the final state plus the
control-flow facts the claims are about. -/

/-- Outcome of the collaborator computation invoked by a wrapper. -/
inductive CompOutcome where
  | ok (s : UtilsState)
  | exn (s : UtilsState) (e : String)

/-- What one wrapper invocation did: final registry state, whether the
semaphore was acquired / released, whether the collaborator computation
was invoked, the `error_occurred` flag, and any exception escaping the
wrapper itself. -/
structure WrapperResult where
  state : UtilsState
  acquiredGate : Bool
  releasedGate : Bool
  compInvoked : Bool
  errorOccurred : Bool
  raised : Option String
deriving Repr

/-- Contention message of `run_analysis_wrapper` (services.py:83-85). -/
def analysisContentionMsg : String :=
  "无法启动分析：已有其他分析任务正在运行，请等待完成后重试"

/-- Contention message of `run_news_evaluation_wrapper` (services.py:194-196). -/
def newsContentionMsg : String :=
  "无法启动新闻评估：已有其他任务正在运行，请等待完成后重试"

/-- The semaphore-timeout branch shared by both wrappers
(services.py:80-90 and 191-201): if the task exists, mark it FAILED with
the contention message, set `completed_at` and bump its version; the
`error` field is left untouched. -/
def wrapperTimeoutFail (s : UtilsState) (task_id msg now : String) : UtilsState :=
  match dget s.tasks task_id with
  | some t =>
      bump_task_version
        { s with
          tasks := dset s.tasks task_id
            { t with
              status := .failed
              message := msg
              completed_at := some now } }
        task_id
  | none => s

/-- The `finally` registry cleanup shared by both wrappers
(services.py:108-113 and 221-226): pop the task's entries from
`TASK_THREADS` and `TASK_STOP_EVENTS`. -/
def wrapperCleanup (s : UtilsState) (task_id : String) : UtilsState :=
  { s with
    taskThreads := s.taskThreads.filter (fun k => k ≠ task_id)
    taskStopEvents := dpop s.taskStopEvents task_id }

/-- Body shared verbatim by `run_analysis_wrapper` (services.py:63-116)
and `run_news_evaluation_wrapper` (services.py:174-231); only the
contention message differs.  Control flow: timeout branch → early return
(the `finally` still runs, the semaphore was never acquired); otherwise
invoke the computation; an escaping exception is fed to
`handle_task_error` (whose own `KeyError` would escape the wrapper); the
`finally` releases the semaphore exactly when acquired and cleans both
registries. -/
def runWrapper (contentionMsg : String) (gateAcquired : Bool)
    (comp : UtilsState → CompOutcome) (now : String)
    (s : UtilsState) (task_id : String) : WrapperResult :=
  if gateAcquired then
    match comp s with
    | .ok s' =>
        { state := wrapperCleanup s' task_id
          acquiredGate := true
          releasedGate := true
          compInvoked := true
          errorOccurred := false
          raised := none }
    | .exn s' e =>
        match handle_task_error s' task_id e now with
        | some s'' =>
            { state := wrapperCleanup s'' task_id
              acquiredGate := true
              releasedGate := true
              compInvoked := true
              errorOccurred := true
              raised := none }
        | none =>
            { state := wrapperCleanup s' task_id
              acquiredGate := true
              releasedGate := true
              compInvoked := true
              errorOccurred := false
              raised := some ("KeyError: " ++ task_id) }
  else
    { state := wrapperCleanup (wrapperTimeoutFail s task_id contentionMsg now) task_id
      acquiredGate := false
      releasedGate := false
      compInvoked := false
      errorOccurred := false
      raised := none }

/-- Embedding of `services.run_analysis_wrapper` (services.py:63-116). -/
def run_analysis_wrapper (gateAcquired : Bool) (comp : UtilsState → CompOutcome)
    (now : String) (s : UtilsState) (task_id : String) : WrapperResult :=
  runWrapper analysisContentionMsg gateAcquired comp now s task_id

/-- Embedding of `services.run_news_evaluation_wrapper` (services.py:174-231). -/
def run_news_evaluation_wrapper (gateAcquired : Bool) (comp : UtilsState → CompOutcome)
    (now : String) (s : UtilsState) (task_id : String) : WrapperResult :=
  runWrapper newsContentionMsg gateAcquired comp now s task_id

/-! ## Task creation (`data_management/services.py`) and the API layer
(`api.py`).  `uuid4()` and `datetime.now().isoformat()` are explicit
parameters; spawning the background thread is recorded as the argument
tuple handed to the wrapper. -/

/-- Register a key in a keys-only registry (`TASK_THREADS[task_id] = thread`). -/
def kset (l : List String) (k : String) : List String :=
  if l.contains k then l else l ++ [k]

/-- Arguments handed to `run_analysis_wrapper` by the thread spawned in
`create_analysis_task` (services.py:163-169). -/
structure SpawnedAnalysis where
  task_id : String
  top_n : Int
  selected_factors : Option (List String)
  collect_latest_data : Bool
deriving DecidableEq, Repr

/-- Arguments handed to `run_news_evaluation_wrapper` by the thread
spawned in `create_news_evaluation_task` (services.py:276-282). -/
structure SpawnedNews where
  task_id : String
  top_n : Int
  news_per_symbol : Int
  openai_model : String
deriving DecidableEq, Repr

/-- Embedding of `services.create_analysis_task` (services.py:119-171). -/
def create_analysis_task (s : UtilsState) (top_n : Int)
    (selected_factors : Option (List String)) (collect_latest_data : Bool)
    (uuid now : String) : String × UtilsState × SpawnedAnalysis :=
  let running_tasks := s.tasks.filter (fun p => p.2.status = .running)
  let task_id := uuid
  let task : Task :=
    { task_id := task_id
      status := .pending
      progress := 0
      message :=
        if running_tasks.length > 0 then
          "任务已创建，等待其他任务完成（当前有" ++
            toString running_tasks.length ++ "个任务运行中）"
        else "任务已创建，正在启动"
      created_at := now
      top_n := top_n
      selected_factors := selected_factors }
  let s1 := add_task s task
  let s2 := { s1 with
              taskStopEvents := dset s1.taskStopEvents task_id false
              taskThreads := kset s1.taskThreads task_id }
  (task_id, s2,
    { task_id := task_id
      top_n := top_n
      selected_factors := selected_factors
      collect_latest_data := collect_latest_data })

/-- Embedding of `services.create_news_evaluation_task` (services.py:234-284). -/
def create_news_evaluation_task (s : UtilsState) (top_n news_per_symbol : Int)
    (openai_model : String) (uuid now : String) : String × UtilsState × SpawnedNews :=
  let running_tasks := s.tasks.filter (fun p => p.2.status = .running)
  let task_id := uuid
  let task : Task :=
    { task_id := task_id
      status := .pending
      progress := 0
      message :=
        if running_tasks.length > 0 then
          "新闻评估任务已创建，等待其他任务完成（当前有" ++
            toString running_tasks.length ++ "个任务运行中）"
        else "新闻评估任务已创建，正在启动"
      created_at := now
      top_n := top_n
      selected_factors := none }
  let s1 := add_task s task
  let s2 := { s1 with
              taskStopEvents := dset s1.taskStopEvents task_id false
              taskThreads := kset s1.taskThreads task_id }
  (task_id, s2,
    { task_id := task_id
      top_n := top_n
      news_per_symbol := news_per_symbol
      openai_model := openai_model })

/-! ## API endpoints (`api.py`) -/

/-- Embedding of `models.RunRequest` (models.py:37-40). -/
structure RunRequest where
  top_n : Int := 50
  selected_factors : Option (List String) := none
  collect_latest_data : Bool := true
deriving DecidableEq, Repr

/-- Embedding of `models.NewsEvaluationRequest` (models.py:43-46). -/
structure NewsEvaluationRequest where
  top_n : Int := 10
  news_per_symbol : Int := 3
  openai_model : String := "gpt-oss-120b"
deriving DecidableEq, Repr

/-- Embedding of `models.RunResponse` (models.py:49-52). -/
structure RunResponse where
  task_id : String
  status : TaskStatus
  message : String
deriving DecidableEq, Repr

/-- Embedding of `api.run_analysis` (api.py:28-38): cap `top_n` at 50, create the
analysis task, answer PENDING. -/
def run_analysis (s : UtilsState) (request : RunRequest)
    (uuid now : String) : RunResponse × UtilsState × SpawnedAnalysis :=
  let top_n := min request.top_n 50
  let r := create_analysis_task s top_n request.selected_factors
    request.collect_latest_data uuid now
  ({ task_id := r.1, status := .pending, message := "分析任务已启动" }, r.2)

/-- Embedding of `api.run_news_evaluation` (api.py:208-218): clamp `top_n` to [1, 20]
and `news_per_symbol` to [1, 10], create the news task, answer PENDING. -/
def run_news_evaluation (s : UtilsState) (request : NewsEvaluationRequest)
    (uuid now : String) : RunResponse × UtilsState × SpawnedNews :=
  let top_n := min (max request.top_n 1) 20
  let news_per_symbol := min (max request.news_per_symbol 1) 10
  let r := create_news_evaluation_task s top_n news_per_symbol
    request.openai_model uuid now
  ({ task_id := r.1, status := .pending, message := "新闻评估任务已启动" }, r.2)

/-- Outcome of `api.stop_task_universal`: a 404, a 400, or the task
snapshot serialized into the HTTP response. -/
inductive StopOutcome where
  | notFound
  | notCancellable
  | stopped (t : Task)
deriving DecidableEq, Repr

/-- Message written by the stop endpoints (api.py:57 and 277). -/
def stopRequestedMsg : String := "已请求停止，正在清理..."

/-- Embedding of `api.stop_task_universal` (api.py:260-307) — `api.stop_analysis`
(api.py:41-75) performs the identical registry mutation.  Unknown id →
HTTP 404, state untouched; no registered stop event → HTTP 400, state
untouched; otherwise set the event, force the status to RUNNING, write
the stop-requested message, bump the version, and return the snapshot. -/
def stop_task_universal (s : UtilsState) (task_id : String) :
    StopOutcome × UtilsState :=
  match dget s.tasks task_id with
  | none => (.notFound, s)
  | some t =>
      match dget s.taskStopEvents task_id with
      | none => (.notCancellable, s)
      | some _ =>
          let t' := { t with status := .running, message := stopRequestedMsg }
          let s' := bump_task_version
            { s with
              tasks := dset s.tasks task_id t'
              taskStopEvents := dset s.taskStopEvents task_id true }
            task_id
          (.stopped t', s')

/-! ## Live-status SSE stream (`main.py:189-255`, `task_events`)

The generator loop polls the shared registry every 0.5s.  Each iteration
is modelled as reading one consistent snapshot of `TASK_VERSIONS` and
`TASKS`; the (infinite) `while True` loop is driven by a finite list of
such snapshots, so the result distinguishes "broke out of the loop"
(`true`) from "trace exhausted while still looping" (`false`).  The
write `TASK_VERSIONS[task_id] = TASK_VERSIONS.get(task_id, 0)`
(main.py:220-222) only materialises the default 0 already used by every
read, so it is not modelled separately. -/

/-- One consistent view of the shared registries taken by one poll. -/
structure RegistrySnapshot where
  versions : List (String × Int)
  tasks : List (String × Task)
deriving DecidableEq, Repr

/-- The `while True` body of `task_events.event_generator`
(main.py:218-253): on a version change re-read and emit the task (or
break if it vanished); then break if the task's status is terminal. -/
def sse_loop (task_id : String) : Int → List RegistrySnapshot → List Task × Bool
  | _, [] => ([], false)
  | last_version, p :: rest =>
      let current := (dget p.versions task_id).getD 0
      if current ≠ last_version then
        match dget p.tasks task_id with
        | none => ([], true)
        | some t =>
            if isTerminal t.status then ([t], true)
            else
              let r := sse_loop task_id current rest
              (t :: r.1, r.2)
      else
        match dget p.tasks task_id with
        | some t =>
            if isTerminal t.status then ([], true)
            else sse_loop task_id last_version rest
        | none => sse_loop task_id last_version rest

/-- Embedding of `main.task_events` (main.py:189-255): emit the baseline snapshot if
the task exists at connection time (initialising `last_version` from
`TASK_VERSIONS`, default 0), then run the polling loop; with no baseline
the loop starts from `last_version = -1`. -/
def task_events (task_id : String) (connect : RegistrySnapshot)
    (polls : List RegistrySnapshot) : List Task × Bool :=
  match dget connect.tasks task_id with
  | some t =>
      let lv := (dget connect.versions task_id).getD 0
      let r := sse_loop task_id lv polls
      (t :: r.1, r.2)
  | none => sse_loop task_id (-1) polls

/-! ## Scheduler (`scheduler.py`)

`TaskScheduler`'s mutable attributes become `SchedState`.  Each job
method becomes a function from the state to a new state plus a log of
the externally observable actions it performed (task creations,
`execute_signals`, Freqtrade calls).  Collaborator calls that may raise
are `Except`-valued inputs drawn from an environment record; a pure
in-memory creation call is the embedded function itself, with
`thread.start()` — its only fallible statement, and the last one — given
an explicit failure flag. -/

/-- Externally observable actions performed by a scheduler job. -/
inductive SchedEvent where
  | createdAnalysisTask (id : String)
  | createdNewsTask (id : String)
  | executedSignals (batch : List String)
  | ranCandlestick (id : String)
  | ranTimeframeReview (id : String)
  | ftHealthCheck
  | ftListTrades
  | ftForceEntry (pair : String)
  | ftForceExit (pair : String)
deriving DecidableEq, Repr

/-- The mutable attributes of `TaskScheduler` (scheduler.py:20-28)
relevant to jobs, plus the shared task registry the jobs act on. -/
structure SchedState where
  enabled : Bool := true
  last_run : Option String := none
  current_analysis_task_id : Option String := none
  current_news_task_id : Option String := none
  current_candlestick_task_id : Option String := none
  current_timeframe_review_task_id : Option String := none
  utils : UtilsState
deriving DecidableEq, Repr

/-- Result of `TaskScheduler._wait_for_task_completion`
(scheduler.py:290-310).  The Python function returns `None` on every
path; this records which exit was taken.  One list entry is one poll of
`get_task`; trace exhaustion is the bounded-wait timeout. -/
inductive WaitOutcome where
  | notFound
  | finished (st : TaskStatus)
  | timedOut
deriving DecidableEq, Repr

/-- Embedding of `TaskScheduler._wait_for_task_completion` (scheduler.py:290-310):
poll `get_task` on a fixed interval; return on a missing task or a
terminal status; fall through after the bounded wait.  Never raises. -/
def wait_for_task_completion : List (Option TaskStatus) → WaitOutcome
  | [] => .timedOut
  | none :: _ => .notFound
  | some st :: rest =>
      if isTerminal st then .finished st else wait_for_task_completion rest

/-- The `finally` of `_run_daily_tasks` (scheduler.py:262-265): clear
the analysis and news current-task slots. -/
def clearDailySlots (s : SchedState) : SchedState :=
  { s with current_analysis_task_id := none, current_news_task_id := none }

/-- Environment of one `_run_daily_tasks` invocation: fresh uuids and
timestamps, a spawn-failure flag per creation (`thread.start()` is the
only fallible statement of the otherwise in-memory create functions),
the wait-loop poll traces, and the outcomes of the phase-3 collaborator
calls (`list_open_trades`, `generate_buy_sell_signals_from_latest`,
`execute_signals`). -/
structure DailyTasksEnv where
  now : String
  analysisUuid : String
  analysisSpawnErr : Option String := none
  analysisPolls : List (Option TaskStatus) := []
  newsUuid : String
  newsSpawnErr : Option String := none
  newsPolls : List (Option TaskStatus) := []
  openTrades : Except String (List (Option String)) := .ok []
  signals : Except String (List (String × List String)) := .ok []
  execErr : Option String := none

/-- Embedding of `TaskScheduler._run_daily_tasks` (scheduler.py:205-265).  Skip when
disabled; record `last_run`; phase 1 creates the analysis task (top 20,
all factors, collect latest) and waits; phase 2 creates the news task
(top 10, 3 per symbol, default model) and waits; phase 3 — inside its
own try/except — reads open positions, derives signals, and hands
`signals.get("sell", []) + signals.get("buy", [])` to
`execute_signals`.  An exception in phase 1 or 2 skips the remaining
phases; every exception is caught; the `finally` always clears both
slots. -/
def run_daily_tasks (env : DailyTasksEnv) (s : SchedState) :
    SchedState × List SchedEvent :=
  if !s.enabled then (s, [])
  else
    let s0 := { s with last_run := some env.now }
    let c1 := create_analysis_task s0.utils 20 none true env.analysisUuid env.now
    let s1 := { s0 with utils := c1.2.1 }
    match env.analysisSpawnErr with
    | some _ => (clearDailySlots s1, [])
    | none =>
        let s2 := { s1 with current_analysis_task_id := some c1.1 }
        let _ := wait_for_task_completion env.analysisPolls
        let c2 := create_news_evaluation_task s2.utils 10 3 "gpt-oss-120b"
          env.newsUuid env.now
        let s3 := { s2 with utils := c2.2.1 }
        match env.newsSpawnErr with
        | some _ => (clearDailySlots s3, [.createdAnalysisTask c1.1])
        | none =>
            let s4 := { s3 with current_news_task_id := some c2.1 }
            let _ := wait_for_task_completion env.newsPolls
            let ev3 : List SchedEvent :=
              match env.openTrades with
              | .error _ => []
              | .ok trades =>
                  let _held := ((trades.filterMap id).dedup).mergeSort (· ≤ ·)
                  match env.signals with
                  | .error _ => []
                  | .ok sig =>
                      let batch := (dget sig "sell").getD [] ++ (dget sig "buy").getD []
                      [SchedEvent.executedSignals batch]
            (clearDailySlots s4,
              [.createdAnalysisTask c1.1, .createdNewsTask c2.1] ++ ev3)

/-- Embedding of `TaskScheduler._run_candlestick_strategy` (scheduler.py:267-288).
Skip when disabled; otherwise set the synthetic current-task id, run the
collaborator strategy pass (any exception caught and logged), and clear
the slot in the `finally`. -/
def run_candlestick_strategy_job (uuid : String) (strategyErr : Option String)
    (s : SchedState) : SchedState × List SchedEvent :=
  if !s.enabled then (s, [])
  else
    let _ := strategyErr
    let s1 := { s with current_candlestick_task_id := some uuid }
    ({ s1 with current_candlestick_task_id := none }, [.ranCandlestick uuid])

/-- Embedding of `TaskScheduler._run_timeframe_review` (scheduler.py:312-335).  Skip
when disabled; otherwise set the synthetic current-task id, run the
analysis (any exception caught and logged), and clear the slot in the
`finally`. -/
def run_timeframe_review_job (uuid : String) (analyzeErr : Option String)
    (s : SchedState) : SchedState × List SchedEvent :=
  if !s.enabled then (s, [])
  else
    let _ := analyzeErr
    let s1 := { s with current_timeframe_review_task_id := some uuid }
    ({ s1 with current_timeframe_review_task_id := none }, [.ranTimeframeReview uuid])

/-- Outcomes of the Freqtrade calls made by
`_place_minimal_test_position` (scheduler.py:577-675), in call order. -/
structure FtEnv where
  health : Except String Bool := .ok true
  openTrades : Except String (List (Option String)) := .ok []
  entryFirst : Except String Bool := .ok true
  exitCount : Except String Int := .ok 0
  entryRetry : Except String Bool := .ok true

/-- The fixed test pairs of `_place_minimal_test_position`
(scheduler.py:594). -/
def testPairs : List String :=
  ["SOL/USDT", "ADA/USDT", "DOT/USDT", "AVAX/USDT", "LINK/USDT"]

/-- Embedding of `TaskScheduler._place_minimal_test_position` (scheduler.py:577-675):
check Freqtrade health, read open positions, pick the first test pair
not already held, place a minimal entry; on a failed (non-raising)
entry with existing positions, close one existing position (preferring a
non-test pair — `list(held_pairs)` iterates a Python set, modelled here
in encounter order) and retry the entry once.  Any exception from a
Freqtrade call is re-raised to the caller.  Returns the Freqtrade calls
performed and the escaping exception, if any. -/
def place_minimal_test_position (env : FtEnv) : List SchedEvent × Option String :=
  match env.health with
  | .error e => ([.ftHealthCheck], some e)
  | .ok false => ([.ftHealthCheck], none)
  | .ok true =>
      match env.openTrades with
      | .error e => ([.ftHealthCheck, .ftListTrades], some e)
      | .ok trades =>
          let evs0 := [SchedEvent.ftHealthCheck, SchedEvent.ftListTrades]
          let held := (trades.filterMap id).dedup
          match testPairs.filter (fun p => !held.contains p) with
          | [] => (evs0, none)
          | selected :: _ =>
              let evs1 := evs0 ++ [SchedEvent.ftForceEntry selected]
              match env.entryFirst with
              | .error e => (evs1, some e)
              | .ok true => (evs1, none)
              | .ok false =>
                  if trades.length > 0 then
                    let pairToClose :=
                      match held.filter (fun p => !testPairs.contains p) with
                      | q :: _ => some q
                      | [] => held.head?
                    match pairToClose with
                    | none => (evs1, none)
                    | some q =>
                        let evs2 := evs1 ++ [SchedEvent.ftForceExit q]
                        match env.exitCount with
                        | .error e => (evs2, some e)
                        | .ok n =>
                            if n > 0 then
                              let evs3 := evs2 ++ [SchedEvent.ftForceEntry selected]
                              match env.entryRetry with
                              | .error e => (evs3, some e)
                              | .ok _ => (evs3, none)
                            else (evs2, none)
                  else (evs1, none)

/-- Embedding of `TaskScheduler._startup_test_position` (scheduler.py:677-685): run
the test-position placement, catching any exception.  It does NOT
consult the `enabled` flag, and touches neither the task registry nor
any scheduler attribute. -/
def startup_test_position (env : FtEnv) (s : SchedState) :
    SchedState × List SchedEvent :=
  (s, (place_minimal_test_position env).1)

/-! ## Per-task lifecycle

Every mutation the code ever performs on one `Task` record, collected
from its call sites.  The only fields with restricted writers are
`result` and `error`: `result` is written solely by the runners'
completion step, and `error` solely by the runners' failure handler and
by `handle_task_error` — all inside or after the computation.  Hence,
in every execution, the wrapper's timeout branch (which precedes the
computation) and the runners' cancellation checkpoints (which precede
the terminal writes) act on a task whose `result` and `error` are still
null, the completion step acts on a null `error`, and the failure
handlers act on a null `result`.  These program-order facts are the
guards of `LifeStep`.  A stop request carries no guard at all: the stop
endpoints check only that a stop event is registered, and the event
survives the runner's terminal write until the wrapper's `finally` pops
it, so a stop may hit a task in any status — including COMPLETED or
FAILED, which it overwrites with RUNNING. -/

/-- Field effect of `utils.update_task_progress` (utils.py:38-39). -/
def taskProgressUpd (t : Task) (p : Rat) (m : String) : Task :=
  { t with progress := p, message := m }

/-- Field effect of the stop endpoints (api.py:56-57, 275-277). -/
def taskStopRequested (t : Task) : Task :=
  { t with status := .running, message := stopRequestedMsg }

/-- Field effect of the wrapper's semaphore-timeout branch
(services.py:82-86, 193-197). -/
def taskTimeoutFailed (t : Task) (msg now : String) : Task :=
  { t with status := .failed, message := msg, completed_at := some now }

/-- Field effect of the runners entering RUNNING
(analysis_task_runner.py:61, news_evaluation_task_runner.py:62). -/
def taskRunnerRunning (t : Task) : Task :=
  { t with status := .running }

/-- Field effect of the runners' `check_cancel`
(analysis_task_runner.py:50-52, news_evaluation_task_runner.py:51-53). -/
def taskRunnerCancelled (t : Task) (now : String) : Task :=
  { t with status := .cancelled, message := "任务已取消", completed_at := some now }

/-- Field effect of the runners' completion step
(analysis_task_runner.py:238-242, news_evaluation_task_runner.py:230-236);
the completion message differs between the two runners and is a
parameter. -/
def taskRunnerCompleted (t : Task) (r : ResultDict) (msg now : String) : Task :=
  { t with
    status := .completed
    progress := 1
    message := msg
    completed_at := some now
    result := some r }

/-- Field effect of the runners' own exception handler
(analysis_task_runner.py:271-279, news_evaluation_task_runner.py:243-251). -/
def taskRunnerFailed (t : Task) (e now : String) : Task :=
  { t with
    status := .failed
    message := "任务失败: " ++ e
    completed_at := some now
    error := some e }

/-- Field effect of `utils.handle_task_error` (utils.py:44-50). -/
def taskWrapperFailed (t : Task) (e now : String) : Task :=
  { t with
    status := .failed
    error := some e
    message := "分析失败: " ++ e
    completed_at := some now }

/-- One mutation of one task record, as performed somewhere in the
code.  The guards are the program-order facts spelled out above: steps
that precede the computation's terminal writes see null `result` and
`error`, the completion step sees a null `error`, the failure handlers
see a null `result`, and a stop request may hit any status. -/
inductive LifeStep : Task → Task → Prop where
  | progressUpd {t} (p : Rat) (m : String) :
      LifeStep t (taskProgressUpd t p m)
  | stopRequested {t} :
      LifeStep t (taskStopRequested t)
  | timeoutFailed {t} (msg now : String)
      (herr : t.error = none) (hres : t.result = none) :
      LifeStep t (taskTimeoutFailed t msg now)
  | runnerRunning {t} :
      LifeStep t (taskRunnerRunning t)
  | runnerCancelled {t} (now : String)
      (herr : t.error = none) (hres : t.result = none) :
      LifeStep t (taskRunnerCancelled t now)
  | runnerCompleted {t} (r : ResultDict) (msg now : String)
      (herr : t.error = none) :
      LifeStep t (taskRunnerCompleted t r msg now)
  | runnerFailed {t} (e now : String) (hres : t.result = none) :
      LifeStep t (taskRunnerFailed t e now)
  | wrapperFailed {t} (e now : String) (hres : t.result = none) :
      LifeStep t (taskWrapperFailed t e now)

/-- Task records observable in some execution: created by
`create_analysis_task` / `create_news_evaluation_task`
(services.py:134-154, 247-267) and mutated by `LifeStep`s. -/
inductive ReachableTask : Task → Prop where
  | created (uuid now msg : String) (top_n : Int) (sf : Option (List String)) :
      ReachableTask
        { task_id := uuid
          status := .pending
          progress := 0
          message := msg
          created_at := now
          top_n := top_n
          selected_factors := sf }
  | step {t t' : Task} : ReachableTask t → LifeStep t t' → ReachableTask t'

/-! ## Claim theorems -/

/-- A task in mid-flight, with some progress and version history. -/
def sampleRunningTask : Task :=
  { task_id := "t1"
    status := .running
    progress := 0
    message := "开始分析任务"
    created_at := "2026-01-01T00:00:00"
    top_n := 10 }

/-- Registry state holding `sampleRunningTask` at version 5, with its
thread and stop event still registered. -/
def sampleRunningState : UtilsState :=
  { tasks := [("t1", sampleRunningTask)]
    taskThreads := ["t1"]
    taskStopEvents := [("t1", false)]
    taskVersions := [("t1", 5)] }

/-- C1: the claim says every terminal-setting operation — in particular
marking the task FAILED via `handle_task_error` — strictly increases the
task's version counter.  The code violates it: `handle_task_error` sets
status FAILED (a distinct observable state) but never calls
`bump_task_version`, so the before and after states share version 5.
(`update_task_progress`, the timeout branch and the runners' terminal
transitions all do bump.) -/
theorem handle_task_error_skips_version_bump :
    (handle_task_error sampleRunningState "t1" "boom" "2026-01-01T01:00:00").map
        (fun s' => (taskVersion s' "t1", (dget s'.tasks "t1").map Task.status)) =
      some ((5 : Int), some TaskStatus.failed)
    ∧ taskVersion sampleRunningState "t1" = 5
    ∧ (dget sampleRunningState.tasks "t1").map Task.status =
        some TaskStatus.running := by
  decide

/-- A freshly created analysis task as `create_analysis_task` registers
it (services.py:146-154). -/
def samplePendingTask : Task :=
  { task_id := "t2"
    status := .pending
    progress := 0
    message := "任务已创建，正在启动"
    created_at := "2026-01-01T00:00:00"
    top_n := 20 }

/-- Registry state right before the spawned wrapper runs for
`samplePendingTask`. -/
def samplePendingState : UtilsState :=
  { tasks := [("t2", samplePendingTask)]
    taskThreads := ["t2"]
    taskStopEvents := [("t2", false)]
    taskVersions := [] }

/-- The task record left behind when the wrapper cannot acquire the
semaphore for `samplePendingTask`. -/
def gateTimeoutTask : Task :=
  (dget (run_analysis_wrapper false (fun s => CompOutcome.ok s)
      "2026-01-01T00:00:05" samplePendingState "t2").state.tasks "t2").getD
    samplePendingTask

/-- C2 counterexample: the claim says `error` is non-null iff the status
is FAILED, for every path that marks a task FAILED — including the
gate-acquisition timeout.  The timeout branch (services.py:80-90) sets
status FAILED, a contention `message` and `completed_at`, but never
writes `error`, so the resulting snapshot has status FAILED with
`error = null`, refuting the iff. -/
theorem gate_timeout_failed_task_has_null_error :
    gateTimeoutTask.status = TaskStatus.failed
    ∧ gateTimeoutTask.error = none
    ∧ ¬ (gateTimeoutTask.error ≠ none ↔ gateTimeoutTask.status = TaskStatus.failed) := by
  decide

/-- The part of the spec invariant that the code does maintain.
RUNNING must be admitted on the right of both implications: the stop
endpoints force status RUNNING whenever a stop event is still
registered, and the event outlives the runner's terminal write until
the wrapper's `finally`, so a late stop request leaves a COMPLETED task
(non-null `result`) or a FAILED task (non-null `error`) with status
RUNNING, never finalized again. -/
def taskInv (t : Task) : Prop :=
  (t.error ≠ none → t.status = TaskStatus.failed ∨ t.status = TaskStatus.running)
  ∧ (t.result ≠ none → t.status = TaskStatus.completed ∨ t.status = TaskStatus.running)

/-- C2 amended: on every observable task snapshot, `error` non-null
implies status FAILED — or RUNNING, reachable only through a stop
request arriving in the window between the terminal write and the
wrapper's registry cleanup — and `result` non-null likewise implies
status COMPLETED or RUNNING; the converse for FAILED does not hold
(gate-timeout failures leave `error` null, see the counterexample). -/
theorem reachable_task_error_result_invariant :
    ∀ t : Task, ReachableTask t → taskInv t := by
  intro t h
  induction h with
  | created uuid now msg top_n sf =>
      exact ⟨fun h' => absurd rfl h', fun h' => absurd rfl h'⟩
  | step _ hstep ih =>
      cases hstep with
      | progressUpd p m =>
          exact ⟨fun h' => ih.1 h', fun h' => ih.2 h'⟩
      | stopRequested =>
          exact ⟨fun _ => Or.inr rfl, fun _ => Or.inr rfl⟩
      | timeoutFailed msg now herr hres =>
          exact ⟨fun h' => absurd herr h', fun h' => absurd hres h'⟩
      | runnerRunning =>
          exact ⟨fun _ => Or.inr rfl, fun _ => Or.inr rfl⟩
      | runnerCancelled now herr hres =>
          exact ⟨fun h' => absurd herr h', fun h' => absurd hres h'⟩
      | runnerCompleted r msg now herr =>
          exact ⟨fun h' => absurd herr h', fun _ => Or.inl rfl⟩
      | runnerFailed e now hres =>
          exact ⟨fun _ => Or.inl rfl, fun h' => absurd hres h'⟩
      | wrapperFailed e now hres =>
          exact ⟨fun _ => Or.inl rfl, fun h' => absurd hres h'⟩

/-- Witness for the amended C2 theorem, exercising the very scenario
that forces the weakening: a task created, run, completed with a
result, and then hit by a late stop request (the stop event is popped
only in the wrapper's `finally`, after the terminal write) is
reachable, carries status RUNNING with a non-null `result`, and
satisfies the invariant. -/
theorem reachable_task_error_result_invariant_witness :
    taskInv (taskStopRequested (taskRunnerCompleted
      (taskRunnerRunning
        { task_id := "t3"
          status := .pending
          progress := 0
          message := "任务已创建，正在启动"
          created_at := "2026-01-01T00:00:00"
          top_n := 20
          selected_factors := none })
      [("count", "0")] "分析完成，共 0 条结果" "2026-01-01T00:10:00")) :=
  reachable_task_error_result_invariant _
    (ReachableTask.step
      (ReachableTask.step
        (ReachableTask.step
          (ReachableTask.created "t3" "2026-01-01T00:00:00" "任务已创建，正在启动" 20 none)
          LifeStep.runnerRunning)
        (LifeStep.runnerCompleted [("count", "0")] "分析完成，共 0 条结果"
          "2026-01-01T00:10:00" rfl))
      LifeStep.stopRequested)

theorem not_mem_filter_ne_self (l : List String) (k : String) :
    k ∉ l.filter (fun x => x ≠ k) := by
  intro h
  have := (List.mem_filter.mp h).2
  simp at this

/-- What the shared wrapper body does on the semaphore-timeout branch
when the task exists. -/
theorem runWrapper_timeout (msg : String) (comp : UtilsState → CompOutcome)
    (now : String) (s : UtilsState) (task_id : String) (t : Task)
    (h : dget s.tasks task_id = some t) :
    let r := runWrapper msg false comp now s task_id
    dget r.state.tasks task_id =
        some { t with status := .failed, message := msg, completed_at := some now }
    ∧ taskVersion r.state task_id = taskVersion s task_id + 1
    ∧ r.compInvoked = false := by
  intro r
  refine ⟨?_, ?_, rfl⟩
  · show dget (wrapperCleanup (wrapperTimeoutFail s task_id msg now) task_id).tasks task_id = _
    simp [wrapperCleanup, wrapperTimeoutFail, h, bump_task_version, dget_dset_self]
  · show taskVersion (wrapperCleanup (wrapperTimeoutFail s task_id msg now) task_id) task_id = _
    simp [wrapperCleanup, wrapperTimeoutFail, h, bump_task_version, taskVersion,
      dget_dset_self]

/-- C3: on semaphore timeout each wrapper marks the (existing) task
FAILED with its contention message, sets `completed_at`, bumps the
version, and never invokes the collaborator computation — the only task
write on this path is the FAILED snapshot, so the task never enters
RUNNING. -/
theorem wrapper_gate_timeout_fails_without_running
    (comp comp' : UtilsState → CompOutcome) (now : String)
    (s : UtilsState) (task_id : String) (t : Task)
    (h : dget s.tasks task_id = some t) :
    let ra := run_analysis_wrapper false comp now s task_id
    let rn := run_news_evaluation_wrapper false comp' now s task_id
    (dget ra.state.tasks task_id =
        some { t with status := .failed, message := analysisContentionMsg,
                      completed_at := some now }
      ∧ taskVersion ra.state task_id = taskVersion s task_id + 1
      ∧ ra.compInvoked = false)
    ∧ (dget rn.state.tasks task_id =
        some { t with status := .failed, message := newsContentionMsg,
                      completed_at := some now }
      ∧ taskVersion rn.state task_id = taskVersion s task_id + 1
      ∧ rn.compInvoked = false) :=
  ⟨runWrapper_timeout analysisContentionMsg comp now s task_id t h,
   runWrapper_timeout newsContentionMsg comp' now s task_id t h⟩

/-- Witness for C3: run both wrappers on `samplePendingState` with the
gate unavailable. -/
theorem wrapper_gate_timeout_fails_without_running_witness :
    (dget (run_analysis_wrapper false (fun s => CompOutcome.ok s)
        "2026-01-01T00:00:05" samplePendingState "t2").state.tasks "t2" =
      some { samplePendingTask with
              status := .failed
              message := analysisContentionMsg
              completed_at := some "2026-01-01T00:00:05" })
    ∧ taskVersion (run_analysis_wrapper false (fun s => CompOutcome.ok s)
        "2026-01-01T00:00:05" samplePendingState "t2").state "t2" =
        taskVersion samplePendingState "t2" + 1 :=
  ⟨(wrapper_gate_timeout_fails_without_running (fun s => CompOutcome.ok s)
      (fun s => CompOutcome.ok s) "2026-01-01T00:00:05" samplePendingState "t2"
      samplePendingTask (by decide)).1.1,
   (wrapper_gate_timeout_fails_without_running (fun s => CompOutcome.ok s)
      (fun s => CompOutcome.ok s) "2026-01-01T00:00:05" samplePendingState "t2"
      samplePendingTask (by decide)).1.2.1⟩

/-- Every exit path of the shared wrapper body releases the semaphore
exactly when it was acquired, clears both per-task registries, lets no
exception escape (as long as an exceptional computation leaves the task
registered, which creation guarantees — `TASKS` entries are never
removed), and converts an escaping computation exception into FAILED. -/
theorem runWrapper_cleanup (msg : String) (gate : Bool)
    (comp : UtilsState → CompOutcome) (now : String)
    (s : UtilsState) (task_id : String)
    (hpresent : ∀ s' e, comp s = CompOutcome.exn s' e →
      (dget s'.tasks task_id).isSome) :
    (runWrapper msg gate comp now s task_id).releasedGate =
        (runWrapper msg gate comp now s task_id).acquiredGate
    ∧ (runWrapper msg gate comp now s task_id).acquiredGate = gate
    ∧ task_id ∉ (runWrapper msg gate comp now s task_id).state.taskThreads
    ∧ dmem (runWrapper msg gate comp now s task_id).state.taskStopEvents task_id = false
    ∧ (runWrapper msg gate comp now s task_id).raised = none
    ∧ (gate = true → ∀ s' e, comp s = CompOutcome.exn s' e →
        (dget (runWrapper msg gate comp now s task_id).state.tasks task_id).map
          Task.status = some TaskStatus.failed) := by
  cases gate with
  | false =>
      exact ⟨rfl, rfl, not_mem_filter_ne_self _ _, dmem_dpop_self _ _, rfl,
        fun h => nomatch h⟩
  | true =>
      match hc : comp s with
      | .ok s₁ =>
          refine ⟨?_, ?_, ?_, ?_, ?_, ?_⟩
          · simp [runWrapper, hc]
          · simp [runWrapper, hc]
          · simp only [runWrapper, hc, wrapperCleanup]
            exact not_mem_filter_ne_self _ _
          · simp only [runWrapper, hc, wrapperCleanup]
            exact dmem_dpop_self _ _
          · simp [runWrapper, hc]
          · intro _ s' e he
            exact nomatch he
      | .exn s₁ e₁ =>
          have hsome : (dget s₁.tasks task_id).isSome := hpresent s₁ e₁ hc
          match ht : dget s₁.tasks task_id with
          | none => simp [ht] at hsome
          | some t₁ =>
              refine ⟨?_, ?_, ?_, ?_, ?_, ?_⟩
              · simp [runWrapper, hc, handle_task_error, ht]
              · simp [runWrapper, hc, handle_task_error, ht]
              · simp only [runWrapper, hc, handle_task_error, ht, wrapperCleanup]
                exact not_mem_filter_ne_self _ _
              · simp only [runWrapper, hc, handle_task_error, ht, wrapperCleanup]
                exact dmem_dpop_self _ _
              · simp [runWrapper, hc, handle_task_error, ht]
              · intro _ s' e _
                simp only [runWrapper, hc, handle_task_error, ht, wrapperCleanup]
                simp [dget_dset_self]

/-- C4: on every exit path of both wrappers — normal return,
gate-timeout, or an exception escaping the collaborator computation —
the semaphore is released exactly when acquired, the task's
`TASK_THREADS` and `TASK_STOP_EVENTS` entries are gone, no exception
escapes the wrapper (given the task stays registered, which holds in
every execution: nothing ever removes `TASKS` entries), and an escaping
computation exception leaves the task FAILED. -/
theorem wrapper_cleanup_on_every_exit (gate : Bool)
    (comp comp' : UtilsState → CompOutcome) (now : String)
    (s : UtilsState) (task_id : String)
    (hpresent : ∀ s' e, comp s = CompOutcome.exn s' e →
      (dget s'.tasks task_id).isSome)
    (hpresent' : ∀ s' e, comp' s = CompOutcome.exn s' e →
      (dget s'.tasks task_id).isSome) :
    ((run_analysis_wrapper gate comp now s task_id).releasedGate =
        (run_analysis_wrapper gate comp now s task_id).acquiredGate
      ∧ (run_analysis_wrapper gate comp now s task_id).acquiredGate = gate
      ∧ task_id ∉ (run_analysis_wrapper gate comp now s task_id).state.taskThreads
      ∧ dmem (run_analysis_wrapper gate comp now s task_id).state.taskStopEvents
          task_id = false
      ∧ (run_analysis_wrapper gate comp now s task_id).raised = none
      ∧ (gate = true → ∀ s' e, comp s = CompOutcome.exn s' e →
          (dget (run_analysis_wrapper gate comp now s task_id).state.tasks
            task_id).map Task.status = some TaskStatus.failed))
    ∧ ((run_news_evaluation_wrapper gate comp' now s task_id).releasedGate =
        (run_news_evaluation_wrapper gate comp' now s task_id).acquiredGate
      ∧ (run_news_evaluation_wrapper gate comp' now s task_id).acquiredGate = gate
      ∧ task_id ∉ (run_news_evaluation_wrapper gate comp' now s task_id).state.taskThreads
      ∧ dmem (run_news_evaluation_wrapper gate comp' now s task_id).state.taskStopEvents
          task_id = false
      ∧ (run_news_evaluation_wrapper gate comp' now s task_id).raised = none
      ∧ (gate = true → ∀ s' e, comp' s = CompOutcome.exn s' e →
          (dget (run_news_evaluation_wrapper gate comp' now s task_id).state.tasks
            task_id).map Task.status = some TaskStatus.failed)) :=
  ⟨runWrapper_cleanup analysisContentionMsg gate comp now s task_id hpresent,
   runWrapper_cleanup newsContentionMsg gate comp' now s task_id hpresent'⟩

/-- Witness for C4: a computation that raises "boom" over
`sampleRunningState` still ends with the registries cleared and the task
FAILED. -/
theorem wrapper_cleanup_on_every_exit_witness :
    "t1" ∉ (run_analysis_wrapper true
        (fun _ => CompOutcome.exn sampleRunningState "boom")
        "2026-01-01T01:00:00" sampleRunningState "t1").state.taskThreads
    ∧ dmem (run_analysis_wrapper true
        (fun _ => CompOutcome.exn sampleRunningState "boom")
        "2026-01-01T01:00:00" sampleRunningState "t1").state.taskStopEvents "t1" = false
    ∧ (dget (run_analysis_wrapper true
        (fun _ => CompOutcome.exn sampleRunningState "boom")
        "2026-01-01T01:00:00" sampleRunningState "t1").state.tasks "t1").map
          Task.status = some TaskStatus.failed := by
  have h := wrapper_cleanup_on_every_exit true
    (fun _ => CompOutcome.exn sampleRunningState "boom")
    (fun _ => CompOutcome.exn sampleRunningState "boom")
    "2026-01-01T01:00:00" sampleRunningState "t1"
    (fun s' e he => by cases he; decide)
    (fun s' e he => by cases he; decide)
  exact ⟨h.1.2.2.1, h.1.2.2.2.1, h.1.2.2.2.2.2 rfl sampleRunningState "boom" rfl⟩

/-- C5: `stop_task_universal` on an existing task with no registered
stop event reports not-cancellable (HTTP 400) and leaves the whole
state unmodified; with a registered event it sets the event, forces the
status to RUNNING (not a terminal status), writes the stop-requested
message, and bumps the version by one. -/
theorem stop_task_universal_spec (s : UtilsState) (task_id : String) (t : Task)
    (h : dget s.tasks task_id = some t) :
    (dget s.taskStopEvents task_id = none →
      stop_task_universal s task_id = (StopOutcome.notCancellable, s))
    ∧ (∀ b, dget s.taskStopEvents task_id = some b →
        (stop_task_universal s task_id).1 =
            StopOutcome.stopped
              { t with status := .running, message := stopRequestedMsg }
        ∧ dget (stop_task_universal s task_id).2.tasks task_id =
            some { t with status := .running, message := stopRequestedMsg }
        ∧ dget (stop_task_universal s task_id).2.taskStopEvents task_id = some true
        ∧ taskVersion (stop_task_universal s task_id).2 task_id =
            taskVersion s task_id + 1
        ∧ isTerminal
            ({ t with status := .running, message := stopRequestedMsg } : Task).status
              = false) := by
  constructor
  · intro hev
    simp [stop_task_universal, h, hev]
  · intro b hev
    refine ⟨?_, ?_, ?_, ?_, rfl⟩ <;>
      simp [stop_task_universal, h, hev, bump_task_version, taskVersion, dget_dset_self]

/-- State holding `sampleRunningTask` whose stop event is already gone
(the wrapper's `finally` has run). -/
def sampleNoEventState : UtilsState :=
  { tasks := [("t1", sampleRunningTask)]
    taskVersions := [("t1", 5)] }

/-- Witness for C5: both branches at concrete states. -/
theorem stop_task_universal_spec_witness :
    stop_task_universal sampleNoEventState "t1" =
        (StopOutcome.notCancellable, sampleNoEventState)
    ∧ dget (stop_task_universal sampleRunningState "t1").2.taskStopEvents "t1" =
        some true
    ∧ taskVersion (stop_task_universal sampleRunningState "t1").2 "t1" = 6 := by
  have h1 := (stop_task_universal_spec sampleNoEventState "t1" sampleRunningTask
    (by decide)).1 (by decide)
  have h2 := (stop_task_universal_spec sampleRunningState "t1" sampleRunningTask
    (by decide)).2 false (by decide)
  exact ⟨h1, h2.2.2.1, by rw [h2.2.2.2.1]; decide⟩

/-- A scheduler with scheduled tasks disabled and an empty registry. -/
def disabledSched : SchedState :=
  { enabled := false, utils := { tasks := [] } }

/-- A scheduler with scheduled tasks enabled and an empty registry. -/
def enabledSched : SchedState :=
  { utils := { tasks := [] } }

/-- Freqtrade environment in which the API is healthy, no position is
held and the first entry succeeds. -/
def startupFtEnv : FtEnv := {}

/-- C6 counterexample: the claim says every scheduler job function —
including the one-shot startup job — no-ops when the enabled flag is
false.  `_startup_test_position` (scheduler.py:677-685) never consults
the flag: invoked on a disabled scheduler it still checks Freqtrade
health, lists open trades and places a test entry order, so it is not a
log-and-return no-op.  (It does leave the registry, the slots and
`last_run` untouched — it never touches them at all.) -/
theorem startup_job_ignores_disabled_flag :
    disabledSched.enabled = false
    ∧ (startup_test_position startupFtEnv disabledSched).2 =
        [SchedEvent.ftHealthCheck, SchedEvent.ftListTrades,
         SchedEvent.ftForceEntry "SOL/USDT"]
    ∧ (startup_test_position startupFtEnv disabledSched).2 ≠ [] := by
  decide

/-- C6 amended: the three jobs that do check the flag — the daily
composite job, the interval candlestick job and the daily timeframe
review — invoked while disabled return with the scheduler state (in
particular `last_run`) and the task registry unchanged and perform no
external action; the startup job runs regardless of the flag (see the
counterexample), though it touches neither the registry nor any
scheduler attribute. -/
theorem disabled_flag_noops_flag_checking_jobs
    (env : DailyTasksEnv) (uuid uuid' : String) (err err' : Option String)
    (s : SchedState) (h : s.enabled = false) :
    run_daily_tasks env s = (s, [])
    ∧ run_candlestick_strategy_job uuid err s = (s, [])
    ∧ run_timeframe_review_job uuid' err' s = (s, []) := by
  refine ⟨?_, ?_, ?_⟩ <;>
    simp [run_daily_tasks, run_candlestick_strategy_job, run_timeframe_review_job, h]

/-- A nominal daily-job environment. -/
def nominalDailyEnv : DailyTasksEnv :=
  { now := "2026-01-02T00:00:00"
    analysisUuid := "a1"
    newsUuid := "n1" }

/-- Witness for the amended C6 theorem at a concrete disabled scheduler. -/
theorem disabled_flag_noops_flag_checking_jobs_witness :
    run_daily_tasks nominalDailyEnv disabledSched = (disabledSched, [])
    ∧ run_candlestick_strategy_job "c1" none disabledSched = (disabledSched, []) :=
  ⟨(disabled_flag_noops_flag_checking_jobs nominalDailyEnv
      "c1" "r1" none none disabledSched rfl).1,
   (disabled_flag_noops_flag_checking_jobs nominalDailyEnv
      "c1" "r1" none none disabledSched rfl).2.1⟩

/-- Daily-job environment in which the analysis task ends FAILED and
everything else succeeds. -/
def failedAnalysisEnv : DailyTasksEnv :=
  { now := "2026-01-02T00:00:00"
    analysisUuid := "a1"
    analysisPolls := [some .running, some .failed]
    newsUuid := "n1"
    newsPolls := [some .completed]
    signals := .ok [("sell", []), ("buy", [])] }

/-- C7 counterexample: the claim says that when phase 1's task reaches
FAILED, phase 2 never starts.  In the code,
`_wait_for_task_completion` returns normally on ANY terminal status
(scheduler.py:303-305) and `_run_daily_tasks` proceeds straight to
phase 2 (scheduler.py:229-236): with the analysis task observed FAILED,
the news-evaluation task is still created. -/
theorem daily_phase2_starts_after_phase1_task_failed :
    wait_for_task_completion failedAnalysisEnv.analysisPolls =
        WaitOutcome.finished TaskStatus.failed
    ∧ SchedEvent.createdNewsTask "n1" ∈ (run_daily_tasks failedAnalysisEnv enabledSched).2
    ∧ SchedEvent.executedSignals [] ∈ (run_daily_tasks failedAnalysisEnv enabledSched).2 := by
  decide

/-- C7 amended: the phases are strictly sequential and only an
*exception* raised in a phase prevents the later phases from starting
(a spawn failure in phase 1 suppresses phases 2 and 3; one in phase 2
suppresses phase 3); a phase whose task merely reaches FAILED does not
stop the sequence (see the counterexample); and the final cleanup
clears the job's two per-kind current-task slots on every path. -/
theorem daily_phases_abort_only_on_exception_and_clear_slots
    (env : DailyTasksEnv) (s : SchedState) (h : s.enabled = true) :
    ((run_daily_tasks env s).1.current_analysis_task_id = none
      ∧ (run_daily_tasks env s).1.current_news_task_id = none)
    ∧ (∀ e, env.analysisSpawnErr = some e → (run_daily_tasks env s).2 = [])
    ∧ (∀ e, env.newsSpawnErr = some e → env.analysisSpawnErr = none →
        (run_daily_tasks env s).2 = [SchedEvent.createdAnalysisTask env.analysisUuid]) := by
  refine ⟨⟨?_, ?_⟩, ?_, ?_⟩
  · cases hA : env.analysisSpawnErr <;> cases hN : env.newsSpawnErr <;>
      simp [run_daily_tasks, h, hA, hN, clearDailySlots]
  · cases hA : env.analysisSpawnErr <;> cases hN : env.newsSpawnErr <;>
      simp [run_daily_tasks, h, hA, hN, clearDailySlots]
  · intro e hA
    simp [run_daily_tasks, h, hA, clearDailySlots]
  · intro e hN hA
    simp [run_daily_tasks, h, hA, hN, clearDailySlots, create_analysis_task]

/-- Witness for the amended C7 theorem: a phase-1 spawn failure yields
no events, and the slots end cleared. -/
theorem daily_phases_abort_only_on_exception_witness :
    (run_daily_tasks { failedAnalysisEnv with analysisSpawnErr := some "boom" }
        enabledSched).2 = []
    ∧ (run_daily_tasks { failedAnalysisEnv with analysisSpawnErr := some "boom" }
        enabledSched).1.current_analysis_task_id = none :=
  ⟨(daily_phases_abort_only_on_exception_and_clear_slots
      { failedAnalysisEnv with analysisSpawnErr := some "boom" }
      enabledSched rfl).2.1 "boom" rfl,
   (daily_phases_abort_only_on_exception_and_clear_slots
      { failedAnalysisEnv with analysisSpawnErr := some "boom" }
      enabledSched rfl).1.1⟩

/-- Registry view at stream connection: `samplePendingTask` at version 0. -/
def connectSnapshot : RegistrySnapshot :=
  { versions := [("t2", 0)], tasks := [("t2", samplePendingTask)] }

/-- Registry view after `handle_task_error` ran on the task: FAILED, but
the version is still 0 because `handle_task_error` never bumps it. -/
def failedNoBumpSnapshot : RegistrySnapshot :=
  { versions := [("t2", 0)]
    tasks := [("t2", taskWrapperFailed samplePendingTask "boom" "2026-01-01T00:10:00")] }

/-- C8 counterexample: the claim says the stream terminates after
emitting a snapshot whose status is terminal.  The loop's terminal check
(main.py:248-253) runs on every iteration whether or not anything was
emitted: if the task turns FAILED without a version change (exactly what
`handle_task_error` produces), the iteration emits nothing and then
breaks, so the stream closes with PENDING as its last — and only —
emitted snapshot. -/
theorem sse_stream_may_close_without_terminal_emission :
    task_events "t2" connectSnapshot [failedNoBumpSnapshot] =
        ([samplePendingTask], true)
    ∧ isTerminal samplePendingTask.status = false
    ∧ isTerminal (taskWrapperFailed samplePendingTask "boom"
        "2026-01-01T00:10:00").status = true := by
  decide

/-- C8 amended: the stream first emits the connect-time state as a
baseline; a poll with an unchanged version and a non-terminal (or
vanished) task emits nothing and continues; a poll with a changed
version re-reads and emits the task state; the loop terminates once a
poll observes a terminal status — whether or not that state was emitted
(see the counterexample) — and terminates when a version-changed poll
finds the task gone from the registry (with an unchanged version a
vanished task keeps the loop polling instead). -/
theorem task_events_stream_behavior (task_id : String)
    (connect p : RegistrySnapshot) (rest : List RegistrySnapshot)
    (lv : Int) (t : Task) :
    (dget connect.tasks task_id = some t →
        (task_events task_id connect rest).1.head? = some t)
    ∧ ((dget p.versions task_id).getD 0 = lv → dget p.tasks task_id = some t →
        isTerminal t.status = false →
        sse_loop task_id lv (p :: rest) = sse_loop task_id lv rest)
    ∧ ((dget p.versions task_id).getD 0 = lv → dget p.tasks task_id = none →
        sse_loop task_id lv (p :: rest) = sse_loop task_id lv rest)
    ∧ ((dget p.versions task_id).getD 0 ≠ lv → dget p.tasks task_id = some t →
        isTerminal t.status = false →
        sse_loop task_id lv (p :: rest) =
          (t :: (sse_loop task_id ((dget p.versions task_id).getD 0) rest).1,
            (sse_loop task_id ((dget p.versions task_id).getD 0) rest).2))
    ∧ (dget p.tasks task_id = some t → isTerminal t.status = true →
        sse_loop task_id lv (p :: rest) =
          (if (dget p.versions task_id).getD 0 ≠ lv then [t] else [], true))
    ∧ ((dget p.versions task_id).getD 0 ≠ lv → dget p.tasks task_id = none →
        sse_loop task_id lv (p :: rest) = ([], true)) := by
  refine ⟨?_, ?_, ?_, ?_, ?_, ?_⟩
  · intro h
    simp [task_events, h]
  · intro hv ht hterm
    simp [sse_loop, hv, ht, hterm]
  · intro hv ht
    simp [sse_loop, hv, ht]
  · intro hv ht hterm
    simp [sse_loop, hv, ht, hterm]
  · intro ht hterm
    by_cases hv : (dget p.versions task_id).getD 0 = lv <;>
      simp [sse_loop, hv, ht, hterm]
  · intro hv ht
    simp [sse_loop, hv, ht]

/-- Registry view with a bumped version and the task FAILED (the
runner's own failure path, which does bump). -/
def failedBumpedSnapshot : RegistrySnapshot :=
  { versions := [("t2", 1)]
    tasks := [("t2", taskRunnerFailed samplePendingTask "boom" "2026-01-01T00:10:00")] }

/-- Witness for the amended C8 theorem: the baseline is emitted at
connection, and a version-changed terminal poll emits the terminal
state and closes the stream. -/
theorem task_events_stream_behavior_witness :
    (task_events "t2" connectSnapshot []).1.head? = some samplePendingTask
    ∧ sse_loop "t2" 0 [failedBumpedSnapshot] =
        ([taskRunnerFailed samplePendingTask "boom" "2026-01-01T00:10:00"], true) := by
  have h1 := (task_events_stream_behavior "t2" connectSnapshot connectSnapshot []
    0 samplePendingTask).1 (by decide)
  have h2 := (task_events_stream_behavior "t2" connectSnapshot failedBumpedSnapshot []
    0 (taskRunnerFailed samplePendingTask "boom" "2026-01-01T00:10:00")).2.2.2.2.1
    (by decide) (by decide)
  refine ⟨h1, ?_⟩
  rw [h2]
  decide

/-- C9: `run_analysis` caps `top_n` at 50 and `run_news_evaluation`
clamps `top_n` into [1, 20] and `news_per_symbol` into [1, 10]; the
created task record carries the clamped `top_n`, the spawned runner
invocation receives the clamped values, and both endpoints answer with
status PENDING for every request. -/
theorem creation_endpoints_clamp_and_answer_pending
    (s s' : UtilsState) (req : RunRequest) (nreq : NewsEvaluationRequest)
    (uuid now uuid' now' : String) :
    ((run_analysis s req uuid now).1.status = TaskStatus.pending
      ∧ (dget (run_analysis s req uuid now).2.1.tasks uuid).map Task.top_n =
          some (min req.top_n 50)
      ∧ (run_analysis s req uuid now).2.2.top_n = min req.top_n 50)
    ∧ ((run_news_evaluation s' nreq uuid' now').1.status = TaskStatus.pending
      ∧ (dget (run_news_evaluation s' nreq uuid' now').2.1.tasks uuid').map
          Task.top_n = some (min (max nreq.top_n 1) 20)
      ∧ (run_news_evaluation s' nreq uuid' now').2.2.top_n =
          min (max nreq.top_n 1) 20
      ∧ (run_news_evaluation s' nreq uuid' now').2.2.news_per_symbol =
          min (max nreq.news_per_symbol 1) 10) := by
  refine ⟨⟨rfl, ?_, rfl⟩, rfl, ?_, rfl, rfl⟩
  · simp [run_analysis, create_analysis_task, add_task, dget_dset_self]
  · simp [run_news_evaluation, create_news_evaluation_task, add_task, dget_dset_self]

/-- Signal dictionary with two sell signals and one buy signal. -/
def sampleSignals : List (String × List String) :=
  [("sell", ["SELL OLDUSDT", "SELL WEAKUSDT"]), ("buy", ["BUY NEWUSDT"])]

/-- C10: whenever the daily job reaches phase 3 with signals generated,
the batch handed to `execute_signals` is exactly
`signals.get("sell", []) ++ signals.get("buy", [])`
(scheduler.py:251-253), so positionally every sell signal precedes
every buy signal in the executed batch. -/
theorem daily_phase3_batch_sells_before_buys
    (env : DailyTasksEnv) (s : SchedState) (trades : List (Option String))
    (sig : List (String × List String))
    (h : s.enabled = true)
    (hA : env.analysisSpawnErr = none) (hN : env.newsSpawnErr = none)
    (hT : env.openTrades = .ok trades) (hS : env.signals = .ok sig) :
    SchedEvent.executedSignals ((dget sig "sell").getD [] ++ (dget sig "buy").getD [])
        ∈ (run_daily_tasks env s).2
    ∧ (∀ i : Nat, i < ((dget sig "sell").getD []).length →
        (((dget sig "sell").getD [] ++ (dget sig "buy").getD [])[i]? =
          ((dget sig "sell").getD [])[i]?))
    ∧ (∀ j : Nat,
        ((dget sig "sell").getD [] ++ (dget sig "buy").getD [])[
            ((dget sig "sell").getD []).length + j]? =
          ((dget sig "buy").getD [])[j]?) := by
  refine ⟨?_, ?_, ?_⟩
  · simp [run_daily_tasks, h, hA, hN, hT, hS, clearDailySlots]
  · intro i hi
    exact List.getElem?_append_left hi
  · intro j
    rw [List.getElem?_append_right (Nat.le_add_right _ _)]
    simp

/-- Witness for C10 at a concrete environment: the executed batch lists
both sell signals before the buy signal. -/
theorem daily_phase3_batch_sells_before_buys_witness :
    SchedEvent.executedSignals
        ["SELL OLDUSDT", "SELL WEAKUSDT", "BUY NEWUSDT"]
      ∈ (run_daily_tasks { failedAnalysisEnv with signals := .ok sampleSignals }
          enabledSched).2 := by
  have h := (daily_phase3_batch_sells_before_buys
    { failedAnalysisEnv with signals := .ok sampleSignals }
    enabledSched [] sampleSignals rfl rfl rfl rfl rfl).1
  simpa [sampleSignals, dget] using h

end GptTrader
